import Mathlib

/-!
Verification development for the proposal-bot workflow engine.

This file gives a shallow embedding of the core orchestration code:

* `RedisLock`    — the project-lock helpers of `app/core/redis_client.py`,
  over an explicit model of the Redis keyspace (key value expiry) with an
  explicit clock `now`;
* `Decision`     — `OrchestratorAgent._parse_decision`, `_fallback_decision`
  and `_decide_next_action` of `app/core/agent.py`;
* `Orchestrator` — `OrchestratorAgent._transition_state`, `_check_timeouts`
  and `_handle_timeout` of `app/core/agent.py`, over an explicit database
  state (project table plus append-only state-transition log);
* `Validation`   — `PlanningAgent._create_validation_task` and
  `_orchestrate_validations` of `app/agents/planning_agent.py`;
* `EmailAgent`   — `EmailAgent._process_raw_email`, `_mark_email_processed`,
  `_extract_thread_id_from_headers` and `_is_relevant_email` of
  `app/agents/email_agent.py`;
* `Workflow`     — the LangGraph proposal workflow of
  `proposal_bot/graphs/proposal_workflow.py` with its checkpoint store and
  `resume_workflow`.

External collaborators (the LLM text generator, `json.loads`, the question
generator, SMTP/IMAP transport) are passed in as explicit function
parameters; opaque payloads are carried as `String` blobs.
-/

namespace ProposalBot

/-! ### Redis project locks (`app/core/redis_client.py`) -/

namespace RedisLock

/-- Model of the Redis keyspace used by the lock helpers: a list of
entries `(key, value, absolute expiry time)`.  Keys are unique (every
write first removes the key). -/
abbrev Store := List (String × String × Nat)

/-- Raw lookup of a key in the store (ignoring expiry). -/
def storeFind (s : Store) (k : String) : Option (String × Nat) :=
  (s.find? (fun e => e.1 == k)).map (fun e => e.2)

/-- Remove a key from the store. -/
def storeRemove (s : Store) (k : String) : Store :=
  s.filter (fun e => e.1 != k)

/-- Redis `GET` at time `now`: an entry whose expiry has been reached is
treated as absent (lazy expiry). -/
def redisGet (s : Store) (k : String) (now : Nat) : Option String :=
  match storeFind s k with
  | none => none
  | some ve => if now < ve.2 then some ve.1 else none

/-- Redis `SET key value EX ttl NX` at time `now`: create-if-absent.
Succeeds exactly when the key is absent or expired, in which case the
entry is (re)created with expiry `now + ttl`. -/
def redisSetNX (s : Store) (k v : String) (ttl now : Nat) : Store × Bool :=
  match redisGet s k now with
  | some _ => (s, false)
  | none => (storeRemove s k ++ [(k, v, now + ttl)], true)

/-- Redis `DEL`. -/
def redisDelete (s : Store) (k : String) : Store :=
  storeRemove s k

/-- Redis `EXPIRE key ttl` at time `now`: reset the expiry of a live key. -/
def redisExpire (s : Store) (k : String) (ttl now : Nat) : Store :=
  match redisGet s k now with
  | none => s
  | some v => storeRemove s k ++ [(k, v, now + ttl)]

/-- The lock key `f"lock:project:\x7bproject_id\x7d"`. -/
def lockKey (project_id : Nat) : String :=
  "lock:project:" ++ toString project_id

/-- Python `str.startswith`, computed over the character list (Lean's
own `String.startsWith` is byte-indexed and not kernel-reducible). -/
def pyStartsWith (s pre : String) : Bool :=
  pre.data.isPrefixOf s.data

/-- `acquire_project_lock(project_id, agent_name, ttl_seconds)`.
`client` is the module Redis client (`None` when Redis is unavailable);
`now` is the model clock; `workerId` is the worker-identifying suffix the
source derives from the Redis URL.  Returns the updated client state and
the Python return value: `True` when Redis is unavailable, otherwise the
result of `SET key value EX ttl NX` on `key = lock:project:id`,
`value = agent_name + ":" + workerId`. -/
def acquire_project_lock (client : Option Store) (now : Nat)
    (project_id : Nat) (agent_name : String) (ttl_seconds : Nat)
    (workerId : String) : Option Store × Bool :=
  match client with
  | none => (none, true)
  | some s =>
    let key := lockKey project_id
    let value := agent_name ++ ":" ++ workerId
    let r := redisSetNX s key value ttl_seconds now
    (some r.1, r.2)

/-- `release_project_lock(project_id, agent_name)`: reads the current
value; if it is non-empty (Python truthiness of the fetched bytes) and
starts with `agent_name`, deletes the key and returns `True`, otherwise
returns `False` leaving the store unchanged. -/
def release_project_lock (client : Option Store) (now : Nat)
    (project_id : Nat) (agent_name : String) : Option Store × Bool :=
  match client with
  | none => (none, true)
  | some s =>
    let key := lockKey project_id
    match redisGet s key now with
    | some v =>
      if (v != "") && pyStartsWith v agent_name then
        (some (redisDelete s key), true)
      else (some s, false)
    | none => (some s, false)

/-- `renew_project_lock(project_id, agent_name, ttl_seconds)`: same
ownership check as release, but extends the expiry via `EXPIRE`. -/
def renew_project_lock (client : Option Store) (now : Nat)
    (project_id : Nat) (agent_name : String) (ttl_seconds : Nat) :
    Option Store × Bool :=
  match client with
  | none => (none, true)
  | some s =>
    let key := lockKey project_id
    match redisGet s key now with
    | some v =>
      if (v != "") && pyStartsWith v agent_name then
        (some (redisExpire s key ttl_seconds now), true)
      else (some s, false)
    | none => (some s, false)

end RedisLock

/-! ### Decision engine (`OrchestratorAgent` in `app/core/agent.py`) -/

namespace Decision

/-- A parsed JSON object with string values — the shape of every decision
object this development manipulates. -/
abbrev JDict := List (String × String)

/-- Dictionary key membership (`field in decision`). -/
def hasKey (d : JDict) (k : String) : Bool :=
  d.any (fun kv => kv.1 == k)

/-- Dictionary lookup (`decision.get(field)`). -/
def dictGet (d : JDict) (k : String) : Option String :=
  (d.find? (fun kv => kv.1 == k)).map (fun kv => kv.2)

/-- Python `str.find(c)`: index of the first occurrence, `-1` if absent. -/
def pyFindChar (s : String) (c : Char) : Int :=
  match s.data.findIdx? (fun x => x == c) with
  | some i => (i : Int)
  | none => -1

/-- Python `str.rfind(c)`: index of the last occurrence, `-1` if absent. -/
def pyRFindChar (s : String) (c : Char) : Int :=
  match s.data.reverse.findIdx? (fun x => x == c) with
  | some i => (s.data.length : Int) - 1 - (i : Int)
  | none => -1

/-- Clamp a Python slice index into `[0, n]` (negative indices count from
the end). -/
def pySliceClamp (n : Nat) (i : Int) : Nat :=
  if i < 0 then (max (i + n) 0).toNat else min i.toNat n

/-- Python `s[start:stop]`. -/
def pySlice (s : String) (start stop : Int) : String :=
  let n := s.data.length
  let st := pySliceClamp n start
  let en := pySliceClamp n stop
  String.mk ((s.data.drop st).take (en - st))

/-- The required fields of a decision object. -/
def requiredFields : List String := ["action", "reasoning"]

/-- The body of `_parse_decision` up to its exception handler: slice the
reply between the first opening brace and the last closing brace, run it
through `json.loads` (the external parser `loads`, returning the decoded
object or a `JSONDecodeError` message), and require the `action` and
`reasoning` fields.  An `Except.error` is a raised
`JSONDecodeError`/`ValueError` caught by the handler below. -/
def parseDecisionTry (loads : String → Except String JDict)
    (decision_text : String) : Except String JDict :=
  let start := pyFindChar decision_text (Char.ofNat 123)
  let stop := pyRFindChar decision_text (Char.ofNat 125) + 1
  let json_str := pySlice decision_text start stop
  match loads json_str with
  | Except.error e => Except.error e
  | Except.ok decision =>
    if requiredFields.all (fun f => hasKey decision f) then Except.ok decision
    else Except.error "Missing required fields in decision"

/-- `_parse_decision`: the body above with its `except (JSONDecodeError,
ValueError)` handler, which returns an escalate decision.  Total: no
exception escapes to the caller. -/
def parseDecision (loads : String → Except String JDict)
    (decision_text : String) : JDict :=
  match parseDecisionTry loads decision_text with
  | Except.ok d => d
  | Except.error e =>
    [("action", "escalate"), ("reasoning", "Decision parsing failed: " ++ e)]

/-- `_fallback_decision`: the static fallback table keyed by current
status, with the source's default for unknown statuses. -/
def fallbackDecision (status : String) : JDict :=
  match status with
  | "received" => [("action", "analyze_rfp"), ("agent", "brief_review")]
  | "analyzing" => [("action", "check_analysis_complete"), ("agent", "brief_review")]
  | "requirements_ready" => [("action", "start_validation"), ("agent", "planning")]
  | "validating" => [("action", "check_validations"), ("agent", "planning")]
  | "planning" => [("action", "create_plan"), ("agent", "planning")]
  | "draft_ready" => [("action", "prepare_proposal"), ("agent", "gtm")]
  | "approved" => [("action", "generate_powerpoint"), ("agent", "powerpoint")]
  | "final_ready" => [("action", "send_proposal"), ("agent", "email")]
  | _ => [("action", "escalate"), ("reasoning", "No fallback available")]

/-- `_decide_next_action`: call the text generator (`genResult` is its
outcome — `Except.error` when `generate_text` raises), parse the reply;
the surrounding handler routes generator failures to the fallback table.
`_parse_decision` itself never raises, so its result is returned as is. -/
def decideNextAction (genResult : Except String String)
    (loads : String → Except String JDict) (status : String) : JDict :=
  match genResult with
  | Except.error _ => fallbackDecision status
  | Except.ok decision_text => parseDecision loads decision_text

/-- Model of Python `json.loads` restricted to the arguments it receives
in this development: the empty-object string `"\x7b\x7d"` decodes to the
empty JSON object, and a string with no JSON content raises
`JSONDecodeError`. -/
def loadsModel (s : String) : Except String JDict :=
  if s = "\x7b\x7d" then Except.ok []
  else Except.error "Expecting value: line 1 column 1 (char 0)"

end Decision

/-! ### State store and transition engine (`app/core/agent.py`) -/

namespace Orchestrator

/-- The fields of a `Project` row that the transition engine touches. -/
structure ProjectRec where
  status : String
  timeout_at : Option Nat
deriving DecidableEq

/-- A `StateTransitionLog` row as created by `_transition_state`. -/
structure LogEntry where
  project_id : Nat
  from_status : String
  to_status : String
  transition_type : String
  agent_name : String
  reasoning : String
deriving DecidableEq

/-- The database state: the project table (id to record, first occurrence
wins) and the append-only transition log. -/
structure DBState where
  projects : List (Nat × ProjectRec)
  log : List LogEntry
deriving DecidableEq

/-- `SELECT * FROM projects WHERE id = project_id` (`scalar_one_or_none`). -/
def lookupProject (db : DBState) (project_id : Nat) : Option ProjectRec :=
  (db.projects.find? (fun pr => pr.1 == project_id)).map (fun pr => pr.2)

/-- Update the status of the (first) row with the given id. -/
def setStatus : List (Nat × ProjectRec) → Nat → String → List (Nat × ProjectRec)
  | [], _, _ => []
  | pr :: rest, pid, st =>
    if pr.1 == pid then (pr.1, { pr.2 with status := st }) :: rest
    else pr :: setStatus rest pid st

/-- `OrchestratorAgent._transition_state(project_id, new_status,
reasoning)`: fetch the project; if present, set its status and append one
log row (`transition_type="project_status"`, `agent_name="orchestrator"`)
in the same transaction; if absent, do nothing (the source has no
not-found branch and raises no error). -/
def transitionState (project_id : Nat) (new_status reasoning : String)
    (db : DBState) : DBState :=
  match lookupProject db project_id with
  | none => db
  | some p =>
    { projects := setStatus db.projects project_id new_status,
      log := db.log ++ [{ project_id := project_id, from_status := p.status,
                          to_status := new_status,
                          transition_type := "project_status",
                          agent_name := "orchestrator",
                          reasoning := reasoning }] }

/-- The most recent transition-log entry for a project. -/
def lastTransitionFor (log : List LogEntry) (project_id : Nat) : Option LogEntry :=
  (log.filter (fun e => e.project_id == project_id)).getLast?

/-- The `to_status` of the most recent transition-log entry for a project. -/
def lastToStatus (log : List LogEntry) (project_id : Nat) : Option String :=
  (lastTransitionFor log project_id).map (fun e => e.to_status)

/-- The ids present in the project table. -/
def projectIds (db : DBState) : List Nat :=
  db.projects.map (fun pr => pr.1)

/-- The spec invariant: every stored project status equals the
`to_status` of its most recent transition-log entry. -/
def statusMatchesLog (db : DBState) : Prop :=
  ∀ pid ∈ projectIds db,
    lastToStatus db.log pid = (lookupProject db pid).map (fun r => r.status)

/-- The orchestrator's static table `STATE_TRANSITIONS` (next state,
responsible agent, default action per state).  It is the source's own
record of which forward transition is legal from each state; note that
`_transition_state` never consults it. -/
def STATE_TRANSITIONS (status : String) : Option (String × String × String) :=
  match status with
  | "received" => some ("analyzing", "brief_review", "analyze_rfp")
  | "analyzing" => some ("requirements_ready", "brief_review", "complete_analysis")
  | "requirements_ready" => some ("validating", "planning", "start_planning")
  | "validating" => some ("planning", "planning", "complete_validations")
  | "planning" => some ("draft_ready", "planning", "create_plan")
  | "draft_ready" => some ("review_ready", "gtm", "generate_proposal")
  | "review_ready" => some ("approved", "gtm", "await_approval")
  | "approved" => some ("generating", "powerpoint", "generate_presentation")
  | "generating" => some ("final_ready", "powerpoint", "finalize_presentation")
  | "final_ready" => some ("sent", "email", "deliver_proposal")
  | _ => none

/-- `OrchestratorAgent._check_timeouts`: true when a timeout is set and
the clock has passed it (`datetime.utcnow() > timeout_at`). -/
def checkTimeouts (now : Nat) (timeout_at : Option Nat) : Bool :=
  match timeout_at with
  | none => false
  | some t => now > t

/-- `OrchestratorAgent._handle_timeout`: transition to the `"timeout"`
status with reasoning `"Project timed out"`. -/
def handleTimeout (project_id : Nat) (db : DBState) : DBState :=
  transitionState project_id "timeout" "Project timed out" db

/-- The timeout-handling prefix of `OrchestratorAgent.execute`: fetch the
project state, and when `_check_timeouts` fires run `_handle_timeout` and
return (`\x7b"status": "timeout_handled"\x7d`, modelled by the Boolean).
When the project is missing or not timed out the sweep step leaves the
database unchanged (the remainder of `execute` is outside this model). -/
def timeoutSweepStep (now : Nat) (project_id : Nat) (db : DBState) :
    DBState × Bool :=
  match lookupProject db project_id with
  | none => (db, false)
  | some p =>
    if checkTimeouts now p.timeout_at then (handleTimeout project_id db, true)
    else (db, false)

/-- A consistent single-project database: project 1 in `received` with a
matching creation log entry. -/
def dbReceived : DBState :=
  { projects := [(1, { status := "received", timeout_at := none })],
    log := [{ project_id := 1, from_status := "created",
              to_status := "received", transition_type := "project_status",
              agent_name := "orchestrator", reasoning := "intake" }] }

/-- A database whose only project sits in the terminal `sent` state. -/
def dbSent : DBState :=
  { projects := [(1, { status := "sent", timeout_at := none })], log := [] }

/-- A database whose only project is awaiting validation with
`timeout_at = 10` already in the past at clock 11. -/
def dbTimedOut : DBState :=
  { projects := [(1, { status := "validating", timeout_at := some 10 })],
    log := [] }

end Orchestrator

/-! ### Validation coordinator (`app/agents/planning_agent.py`) -/

namespace Validation

/-- One entry of `validations_needed` as built by
`_identify_validation_needs`.  `attr` carries the source dictionary's
`attribute` key (`attribute` is reserved in Lean). -/
structure ValidationNeed where
  resource_id : Nat
  attr : String
  reason : String
  priority : String
deriving DecidableEq

/-- A `Validation` row as created by `_create_validation_task`. -/
structure ValidationRow where
  id : Nat
  resource_id : Nat
  attribute_path : String
  validation_type : String
  question : String
  priority : String
  status : String
deriving DecidableEq

/-- The validation table plus the autoincrement counter. -/
structure ValidationDB where
  rows : List ValidationRow
  nextId : Nat
deriving DecidableEq

/-- The dictionary `_create_validation_task` returns for the dispatch
loop. -/
structure ValidationTaskInfo where
  id : Nat
  resource_id : Nat
  question : String
  priority : String
deriving DecidableEq

/-- `PlanningAgent._create_validation_task`: generate the question text
(external `genQuestion`), insert a fresh `Validation` row with
`validation_type="capability"` and `status="pending"`, and return its
summary.  The source performs no lookup of existing rows. -/
def createValidationTask (genQuestion : ValidationNeed → String)
    (v : ValidationNeed) (db : ValidationDB) :
    ValidationDB × ValidationTaskInfo :=
  let question := genQuestion v
  let row : ValidationRow :=
    { id := db.nextId, resource_id := v.resource_id,
      attribute_path := v.attr, validation_type := "capability",
      question := question, priority := v.priority, status := "pending" }
  ({ rows := db.rows ++ [row], nextId := db.nextId + 1 },
   { id := db.nextId, resource_id := v.resource_id, question := question,
     priority := v.priority })

/-- The row-creation loop of `PlanningAgent._orchestrate_validations`
(the subsequent Celery email dispatch is outside the database model). -/
def orchestrateValidations (genQuestion : ValidationNeed → String)
    (needs : List ValidationNeed) (db : ValidationDB) :
    ValidationDB × List ValidationTaskInfo :=
  match needs with
  | [] => (db, [])
  | v :: rest =>
    let r := createValidationTask genQuestion v db
    let r2 := orchestrateValidations genQuestion rest r.1
    (r2.1, r.2 :: r2.2)

/-- Number of `Validation` rows with the given `(resource_id,
attribute_path)` key. -/
def matchingRequests (db : ValidationDB) (rid : Nat) (ap : String) : Nat :=
  (db.rows.filter (fun r => r.resource_id == rid && r.attribute_path == ap)).length

end Validation

/-! ### Inbound email processing (`app/agents/email_agent.py`) -/

namespace EmailAgent

/-- A raw IMAP message as assembled by `_imap_fetch_sync`. -/
structure RawMsg where
  uid : String
  subject : String
  fromAddr : String
  text : String
  html : String
  headers : List (String × String)
deriving DecidableEq

/-- The dictionary `_process_raw_email` returns for a processed message. -/
structure ProcessedEmail where
  uid : String
  subject : String
  sender : String
  text_body : String
  html_body : String
  thread_id : Option String
deriving DecidableEq

/-- The Redis keys used by the agent, with absolute expiry times — in
particular the TTL-bounded processed-message set
`processed_email:<uid>`. -/
abbrev RedisKV := List (String × Nat)

/-- Redis `SETEX key ttl "1"` at time `now`. -/
def setex (r : RedisKV) (key : String) (ttl now : Nat) : RedisKV :=
  r.filter (fun e => e.1 != key) ++ [(key, now + ttl)]

/-- Membership of a key at time `now` (expired entries are absent). -/
def liveKey (r : RedisKV) (key : String) (now : Nat) : Bool :=
  match r.find? (fun e => e.1 == key) with
  | some e => now < e.2
  | none => false

/-- `_mark_email_processed(uid)`: `SETEX processed_email:<uid> 86400 "1"`. -/
def markEmailProcessed (now : Nat) (r : RedisKV) (uid : String) : RedisKV :=
  setex r ("processed_email:" ++ uid) 86400 now

/-- Whether the uid is currently in the processed-message dedup set. -/
def emailProcessed (r : RedisKV) (uid : String) (now : Nat) : Bool :=
  liveKey r ("processed_email:" ++ uid) now

/-- Lookup of a header value, defaulting to the empty string
(`headers.get(name, '')`). -/
def headerGet (hs : List (String × String)) (k : String) : String :=
  match hs.find? (fun e => e.1 == k) with
  | some e => e.2
  | none => ""

/-- Python `str.strip('<>')`: drop leading and trailing angle brackets. -/
def stripAngles (s : String) : String :=
  let cs : List Char := ['<', '>']
  String.mk (((s.data.dropWhile (fun c => cs.contains c)).reverse.dropWhile
    (fun c => cs.contains c)).reverse)

/-- Character membership (`c in s`), computed over the character list. -/
def charIn (s : String) (c : Char) : Bool :=
  s.data.contains c

/-- The part of a string before its first `'@'`
(`s.split('@')[0]`). -/
def beforeAt (s : String) : String :=
  String.mk (s.data.takeWhile (fun c => c != '@'))

/-- The reference-scanning loop of `_extract_thread_id_from_headers`:
return the first whitespace-separated reference that, once stripped of
angle brackets, contains `'@'` with a 36-character (UUID-length) part
before it. -/
def refsSearch : List String → Option String
  | [] => none
  | r :: rest =>
    let r2 := stripAngles r
    if charIn r2 '@' && (beforeAt r2).data.length == 36 then some (beforeAt r2)
    else refsSearch rest

/-- `_extract_thread_id_from_headers`: try the `Message-ID` header (part
before `'@'`, stripped of angle brackets, must have UUID length 36), then
fall back to scanning the `References` header. -/
def extractThreadIdFromHeaders (hs : List (String × String)) : Option String :=
  let message_id := headerGet hs "Message-ID"
  let references := headerGet hs "References"
  let fromMid : Option String :=
    if charIn message_id '@' then
      let potential_id := stripAngles (beforeAt message_id)
      if potential_id.data.length == 36 then some potential_id else none
    else none
  match fromMid with
  | some t => some t
  | none =>
    if references != "" then
      refsSearch (((references.data.splitOnP (fun c => c.isWhitespace)).map
        String.mk).filter (fun w => w != ""))
    else none

/-- The keyword list of `_is_relevant_email`. -/
def relevantKeywords : List String :=
  ["validation", "confirm", "availability", "capability",
   "proposal", "rfp", "research", "methodology",
   "yes", "no", "available", "unavailable"]

/-- Lower-case a string (`str.lower()` for the ASCII subject lines this
model handles), computed over the character list. -/
def toLowerStr (s : String) : String :=
  String.mk (s.data.map Char.toLower)

/-- Substring containment (`keyword in text`). -/
def containsSubstr (s sub : String) : Bool :=
  (List.range (s.data.length + 1)).any
    (fun i => sub.data.isPrefixOf (s.data.drop i))

/-- `_is_relevant_email`: some keyword occurs in the lower-cased subject
or body. -/
def isRelevantEmail (m : RawMsg) : Bool :=
  let subject := toLowerStr m.subject
  let text_body := toLowerStr m.text
  relevantKeywords.any
    (fun k => containsSubstr subject k || containsSubstr text_body k)

/-- `_process_raw_email(msg_data)`: extract the thread id; when there is
no thread id and the message is not relevant, return `None`; otherwise
mark the uid in the processed set and return the processed record.  No
read of the processed set occurs anywhere on this path. -/
def processRawEmail (now : Nat) (r : RedisKV) (m : RawMsg) :
    RedisKV × Option ProcessedEmail :=
  let thread_id := extractThreadIdFromHeaders m.headers
  if thread_id.isNone && !(isRelevantEmail m) then (r, none)
  else
    (markEmailProcessed now r m.uid,
     some { uid := m.uid, subject := m.subject, sender := m.fromAddr,
            text_body := m.text, html_body := m.html, thread_id := thread_id })

/-- The per-message loop of `_fetch_new_emails` over one batch of raw
IMAP messages (messages stay unseen on the server:
`mark_seen=False`). -/
def fetchLoop (now : Nat) (r : RedisKV) :
    List RawMsg → RedisKV × List ProcessedEmail
  | [] => (r, [])
  | m :: rest =>
    let step := processRawEmail now r m
    let r2 := fetchLoop now step.1 rest
    match step.2 with
    | some p => (r2.1, p :: r2.2)
    | none => (r2.1, r2.2)

/-- A concrete inbound reply: uid `"123"`, carrying a UUID-length thread
id in its `Message-ID`. -/
def sampleMsg : RawMsg :=
  { uid := "123", subject := "Re: Validation Request",
    fromAddr := "alice@example.com", text := "yes, available", html := "",
    headers := [("Message-ID",
      "<aaaaaaaa-bbbb-cccc-dddd-eeeeeeeeeeee@mail.example.com>")] }

end EmailAgent

/-! ### Checkpointed proposal workflow
(`proposal_bot/graphs/proposal_workflow.py`, `proposal_bot/server.py`) -/

namespace Workflow

/-- The LangGraph `WorkflowState` TypedDict.  Collaborator-owned payloads
(`brief`, agent outputs) are carried as opaque string blobs. -/
structure WorkflowState where
  brief_id : String
  brief : String
  brief_status : String
  project_id : String
  project_status : String
  current_step : String
  messages : List String
  errors : List String
  brief_preparation_output : String
  proposal_output : String
  memory_updates : String
  awaiting_clarification : Bool
  awaiting_validation : Bool
  awaiting_lead_approval : Bool
  final_proposal : List (String × String)
deriving DecidableEq

/-- The external agents the workflow nodes call:
`BriefPreparationAgent.process_brief`, `ProposalAgent.generate_proposal`
(both applied to the brief payload) and
`BackgroundMemoryAgent.monitor_project_emails` (applied to the project
id). -/
structure AgentFns where
  processBrief : String → String
  generateProposal : String → String
  monitorProjectEmails : String → String

/-- `_brief_preparation_node`. -/
def briefPreparationNode (fns : AgentFns) (s : WorkflowState) : WorkflowState :=
  { s with brief_preparation_output := fns.processBrief s.brief,
           current_step := "brief_preparation",
           messages := s.messages ++ ["Brief preparation completed"] }

/-- `_check_clarification_node`: the placeholder always clears the
clarification flag. -/
def checkClarificationNode (s : WorkflowState) : WorkflowState :=
  { s with awaiting_clarification := false,
           current_step := "check_clarification" }

/-- `_route_after_clarification_check`. -/
def routeAfterClarificationCheck (s : WorkflowState) : String :=
  if s.awaiting_clarification then "clarification_needed" else "proceed"

/-- `_await_clarification_node` (the clarification checkpoint; with the
placeholder check node it is unreachable from `invoke`). -/
def awaitClarificationNode (s : WorkflowState) : WorkflowState :=
  { s with current_step := "await_clarification",
           messages := s.messages ++ ["Awaiting clarification from sales representative"] }

/-- `_proposal_generation_node` (`ProjectStatus.RESOURCING.value`). -/
def proposalGenerationNode (fns : AgentFns) (s : WorkflowState) : WorkflowState :=
  { s with proposal_output := fns.generateProposal s.brief,
           project_status := "resourcing",
           current_step := "proposal_generation",
           messages := s.messages ++ ["Proposal generation completed"] }

/-- `_resource_validation_node`. -/
def resourceValidationNode (s : WorkflowState) : WorkflowState :=
  { s with awaiting_validation := true,
           current_step := "resource_validation",
           messages := s.messages ++ ["Resource validation emails sent"] }

/-- `_await_validation_node`. -/
def awaitValidationNode (s : WorkflowState) : WorkflowState :=
  { s with current_step := "await_validation",
           messages := s.messages ++ ["Awaiting validation responses from resource managers"] }

/-- `_lead_validation_node`. -/
def leadValidationNode (s : WorkflowState) : WorkflowState :=
  { s with awaiting_lead_approval := true,
           current_step := "lead_validation",
           messages := s.messages ++ ["Project lead validation email sent"] }

/-- `_await_lead_approval_node`. -/
def awaitLeadApprovalNode (s : WorkflowState) : WorkflowState :=
  { s with current_step := "await_lead_approval",
           messages := s.messages ++ ["Awaiting project lead approval"] }

/-- `_finalize_proposal_node` (`ProjectStatus.READY.value`). -/
def finalizeProposalNode (s : WorkflowState) : WorkflowState :=
  { s with project_status := "ready",
           current_step := "finalize_proposal",
           messages := s.messages ++ ["Proposal finalized and ready for review"],
           final_proposal :=
             [("project_id", s.project_id), ("brief_id", s.brief_id),
              ("status", "finalized"), ("document", "proposal_document.pdf")] }

/-- `_update_memory_node`. -/
def updateMemoryNode (fns : AgentFns) (s : WorkflowState) : WorkflowState :=
  { s with memory_updates := fns.monitorProjectEmails s.project_id,
           current_step := "complete",
           messages := s.messages ++ ["Knowledge base updated"] }

/-- `graph.invoke`: run the compiled graph from its entry point
`brief_preparation` to `END`.  After `check_clarification` the
conditional edge routes on `_route_after_clarification_check`; the
placeholder check node has just set `awaiting_clarification = False`, so
the route is always `"proceed"` (see `route_after_check_is_proceed`) and
the graph is the straight line of the remaining nodes.  No
`interrupt_before`/`interrupt_after` is configured, so `invoke` never
pauses. -/
def invokeGraph (fns : AgentFns) (s : WorkflowState) : WorkflowState :=
  let s1 := briefPreparationNode fns s
  let s2 := checkClarificationNode s1
  if routeAfterClarificationCheck s2 = "clarification_needed" then
    awaitClarificationNode s2
  else
    updateMemoryNode fns
      (finalizeProposalNode
        (awaitLeadApprovalNode
          (leadValidationNode
            (awaitValidationNode
              (resourceValidationNode
                (proposalGenerationNode fns s2))))))

/-- The `MemorySaver` checkpoint store: persisted workflow state keyed by
thread id (`thread_id = project_id`). -/
abbrev CheckpointStore := List (String × WorkflowState)

/-- `graph.get_state(config).values` for a thread. -/
def getState (store : CheckpointStore) (project_id : String) :
    Option WorkflowState :=
  (store.find? (fun e => e.1 == project_id)).map (fun e => e.2)

/-- Persist the state produced by `invoke` under the thread id. -/
def setState (store : CheckpointStore) (project_id : String)
    (s : WorkflowState) : CheckpointStore :=
  match store with
  | [] => [(project_id, s)]
  | e :: rest =>
    if e.1 == project_id then (project_id, s) :: rest
    else e :: setState rest project_id s

/-- The state updates passed to `resume_workflow`: a partial dictionary
merged over the persisted state by `\x7b**current_state.values,
**updates\x7d` (a present field replaces the stored one wholesale). -/
structure StateUpdates where
  brief_id : Option String := none
  brief : Option String := none
  brief_status : Option String := none
  project_id : Option String := none
  project_status : Option String := none
  current_step : Option String := none
  messages : Option (List String) := none
  errors : Option (List String) := none
  brief_preparation_output : Option String := none
  proposal_output : Option String := none
  memory_updates : Option String := none
  awaiting_clarification : Option Bool := none
  awaiting_validation : Option Bool := none
  awaiting_lead_approval : Option Bool := none
  final_proposal : Option (List (String × String)) := none
deriving DecidableEq

/-- The dictionary merge `\x7b**current_state.values, **updates\x7d`. -/
def applyUpdates (s : WorkflowState) (u : StateUpdates) : WorkflowState :=
  { brief_id := u.brief_id.getD s.brief_id,
    brief := u.brief.getD s.brief,
    brief_status := u.brief_status.getD s.brief_status,
    project_id := u.project_id.getD s.project_id,
    project_status := u.project_status.getD s.project_status,
    current_step := u.current_step.getD s.current_step,
    messages := u.messages.getD s.messages,
    errors := u.errors.getD s.errors,
    brief_preparation_output :=
      u.brief_preparation_output.getD s.brief_preparation_output,
    proposal_output := u.proposal_output.getD s.proposal_output,
    memory_updates := u.memory_updates.getD s.memory_updates,
    awaiting_clarification :=
      u.awaiting_clarification.getD s.awaiting_clarification,
    awaiting_validation := u.awaiting_validation.getD s.awaiting_validation,
    awaiting_lead_approval :=
      u.awaiting_lead_approval.getD s.awaiting_lead_approval,
    final_proposal := u.final_proposal.getD s.final_proposal }

/-- `ProposalWorkflow.resume_workflow(project_id, updates)`: load the
persisted state for the thread, merge `updates` over it, re-invoke the
graph on the merged state, and persist the result.  The source performs
no comparison against the persisted checkpoint name or any epoch before
re-invoking.  (When no checkpoint exists for the thread, `get_state`
yields an empty snapshot and the node code would fault on the missing
brief; that path is outside this model and returns `none`.) -/
def resumeWorkflow (fns : AgentFns) (store : CheckpointStore)
    (project_id : String) (updates : StateUpdates) :
    CheckpointStore × Option WorkflowState :=
  match getState store project_id with
  | none => (store, none)
  | some current =>
    let updated_state := applyUpdates current updates
    let result := invokeGraph fns updated_state
    (setState store project_id result, some result)

/-- The eight progress messages one graph run appends, in node order. -/
def runMessages : List String :=
  ["Brief preparation completed",
   "Proposal generation completed",
   "Resource validation emails sent",
   "Awaiting validation responses from resource managers",
   "Project lead validation email sent",
   "Awaiting project lead approval",
   "Proposal finalized and ready for review",
   "Knowledge base updated"]

/-- A concrete paused workflow state (paused at the validation
checkpoint), used as the persisted checkpoint in concrete runs. -/
def pausedState : WorkflowState :=
  { brief_id := "brief_001", brief := "brief payload",
    brief_status := "received", project_id := "project_brief_001",
    project_status := "planning", current_step := "await_validation",
    messages := [], errors := [], brief_preparation_output := "",
    proposal_output := "", memory_updates := "",
    awaiting_clarification := false, awaiting_validation := true,
    awaiting_lead_approval := false, final_proposal := [] }

/-- Constant stand-ins for the external agents in concrete runs. -/
def constFns : AgentFns :=
  { processBrief := fun _ => "prep", generateProposal := fun _ => "prop",
    monitorProjectEmails := fun _ => "mem" }

end Workflow

/-! ## Theorems -/

/-! ### Lock manager -/

namespace RedisLock

theorem find?_storeRemove_self (s : Store) (k : String) :
    (storeRemove s k).find? (fun e => e.1 == k) = none := by
  rw [List.find?_eq_none]
  intro x hx
  have hx2 := List.of_mem_filter hx
  simp only [bne_iff_ne, ne_eq] at hx2
  simp [hx2]

theorem find?_append_of_none {α : Type} (p : α → Bool) (l₁ l₂ : List α)
    (h : l₁.find? p = none) : (l₁ ++ l₂).find? p = l₂.find? p := by
  induction l₁ with
  | nil => rfl
  | cons x xs ih =>
    rw [List.find?_cons] at h
    cases hp : p x with
    | true => simp [hp] at h
    | false =>
      simp only [hp] at h
      simpa [List.find?_cons, hp] using ih h

theorem storeFind_removeAppend (s : Store) (k v : String) (e : Nat) :
    storeFind (storeRemove s k ++ [(k, v, e)]) k = some (v, e) := by
  unfold storeFind
  rw [find?_append_of_none _ _ _ (find?_storeRemove_self s k)]
  simp [List.find?_cons]

theorem redisGet_removeAppend (s : Store) (k v : String) (e t : Nat) :
    redisGet (storeRemove s k ++ [(k, v, e)]) k t =
      if t < e then some v else none := by
  unfold redisGet
  rw [storeFind_removeAppend]

/-- C2: lock acquisition is create-if-absent — with the coordination
store available, `acquire_project_lock` returns true exactly when no
unexpired lock entry exists for the project's key; after a successful
acquire at time `t` with lease `ttl`, every acquire by any worker at a
time before `t + ttl` returns false, and once `t + ttl` has elapsed with
no renewal the next acquire by any worker returns true. -/
theorem acquire_project_lock_create_if_absent (s : Store)
    (now t pid ttl : Nat) (a w : String) :
    ((acquire_project_lock (some s) now pid a ttl w).2 = true ↔
       redisGet s (lockKey pid) now = none) ∧
    (∀ s₂, acquire_project_lock (some s) t pid a ttl w = (some s₂, true) →
       (∀ b w₂ ttl₂ t₂, t₂ < t + ttl →
          (acquire_project_lock (some s₂) t₂ pid b ttl₂ w₂).2 = false) ∧
       (∀ b w₂ ttl₂ t₂, t + ttl ≤ t₂ →
          (acquire_project_lock (some s₂) t₂ pid b ttl₂ w₂).2 = true)) := by
  constructor
  · cases h : redisGet s (lockKey pid) now with
    | none => simp [acquire_project_lock, redisSetNX, h]
    | some v => simp [acquire_project_lock, redisSetNX, h]
  · intro s₂ hacq
    have hs₂ : s₂ = storeRemove s (lockKey pid) ++
        [(lockKey pid, a ++ ":" ++ w, t + ttl)] := by
      cases h : redisGet s (lockKey pid) t with
      | none =>
        simp only [acquire_project_lock, redisSetNX, h, Prod.mk.injEq,
          Option.some.injEq, and_true] at hacq
        exact hacq.symm
      | some v =>
        simp only [acquire_project_lock, redisSetNX, h, Prod.mk.injEq] at hacq
        exact absurd hacq.2 (by simp)
    constructor
    · intro b w₂ ttl₂ t₂ ht
      have hget : redisGet s₂ (lockKey pid) t₂ = some (a ++ ":" ++ w) := by
        rw [hs₂, redisGet_removeAppend]
        simp [ht]
      simp [acquire_project_lock, redisSetNX, hget]
    · intro b w₂ ttl₂ t₂ ht
      have hget : redisGet s₂ (lockKey pid) t₂ = none := by
        rw [hs₂, redisGet_removeAppend]
        simp [Nat.not_lt.mpr ht]
      simp [acquire_project_lock, redisSetNX, hget]

/-- Witness for C2, mirroring the spec's literal example:
`acquire("proj-42","workerA",300s)` succeeds on an empty store; while the
lease is live (1s later) `workerB` fails; after 301s have elapsed
`workerB` succeeds. -/
theorem acquire_project_lock_create_if_absent_witness :
    (acquire_project_lock (some []) 0 42 "workerA" 300 "0").2 = true ∧
    (acquire_project_lock (some [("lock:project:42", "workerA:0", 300)])
       1 42 "workerB" 300 "0").2 = false ∧
    (acquire_project_lock (some [("lock:project:42", "workerA:0", 300)])
       301 42 "workerB" 300 "0").2 = true := by
  have h := acquire_project_lock_create_if_absent [] 0 0 42 300 "workerA" "0"
  have hacq : acquire_project_lock (some ([] : Store)) 0 42 "workerA" 300 "0" =
      (some [("lock:project:42", "workerA:0", 300)], true) := by decide
  refine ⟨h.1.mpr rfl, ?_, ?_⟩
  · exact (h.2 _ hacq).1 "workerB" "0" 300 1 (by decide)
  · exact (h.2 _ hacq).2 "workerB" "0" 300 301 (by decide)

/-- C10: when the Redis client is unavailable (`None`), all three lock
helpers return `True` for every project and holder — in particular two
different workers both "acquire" the same project's lock, so mutual
exclusion is not enforced in degraded mode. -/
theorem locks_degraded_mode (now pid ttl ttl₂ : Nat) (a b w₁ w₂ : String) :
    acquire_project_lock none now pid a ttl w₁ = (none, true) ∧
    acquire_project_lock none now pid b ttl₂ w₂ = (none, true) ∧
    release_project_lock none now pid a = (none, true) ∧
    renew_project_lock none now pid a ttl = (none, true) :=
  ⟨rfl, rfl, rfl, rfl⟩

/-- Counterexample to C8 as stated: the ownership check is
`startswith(agent_name)` on the stored `agent:workerId` string, not an
equality test against the current holder.  With the lock stored as
`"workerA:0"` (holder `workerA`), the distinct caller `"worker"` passes
the prefix test: release deletes the lock and returns true, and renew
extends the lease and returns true — the lock is mutated by a
non-holder. -/
theorem release_renew_counterexample :
    ("worker" ≠ "workerA") ∧
    redisGet [("lock:project:1", "workerA:0", 300)] (lockKey 1) 10 =
      some "workerA:0" ∧
    release_project_lock (some [("lock:project:1", "workerA:0", 300)])
      10 1 "worker" = (some [], true) ∧
    renew_project_lock (some [("lock:project:1", "workerA:0", 300)])
      10 1 "worker" 300 =
      (some [("lock:project:1", "workerA:0", 310)], true) := by
  refine ⟨by decide, by decide, by decide, by decide⟩

/-- C8 amended: release and renew succeed exactly when the stored lock
value is non-empty and *starts with* the caller's holder name (so the
exact holder succeeds, but so does any caller whose name is a prefix of
the stored `agent:workerId` string); when the prefix test fails, or no
live lock exists, they return false and leave the store unchanged. -/
theorem release_renew_prefix_ownership (s : Store) (now pid ttl : Nat)
    (a : String) :
    (∀ v, redisGet s (lockKey pid) now = some v →
       ((v != "") && pyStartsWith v a) = true →
       release_project_lock (some s) now pid a =
         (some (redisDelete s (lockKey pid)), true) ∧
       renew_project_lock (some s) now pid a ttl =
         (some (redisExpire s (lockKey pid) ttl now), true)) ∧
    (∀ v, redisGet s (lockKey pid) now = some v →
       ((v != "") && pyStartsWith v a) = false →
       release_project_lock (some s) now pid a = (some s, false) ∧
       renew_project_lock (some s) now pid a ttl = (some s, false)) ∧
    (redisGet s (lockKey pid) now = none →
       release_project_lock (some s) now pid a = (some s, false) ∧
       renew_project_lock (some s) now pid a ttl = (some s, false)) := by
  refine ⟨?_, ?_, ?_⟩
  · intro v hv hcond
    constructor
    · simp [release_project_lock, hv, hcond]
    · simp [renew_project_lock, hv, hcond]
  · intro v hv hcond
    constructor
    · simp [release_project_lock, hv, hcond]
    · simp [renew_project_lock, hv, hcond]
  · intro hv
    constructor
    · simp [release_project_lock, hv]
    · simp [renew_project_lock, hv]

/-- Witness for the amended C8: the exact holder `workerA` releases and
renews its own lock; the non-prefix caller `intruder` fails and leaves
the store unchanged; on an empty store both fail. -/
theorem release_renew_prefix_ownership_witness :
    (release_project_lock (some [("lock:project:5", "workerA:7", 100)])
       0 5 "workerA" = (some [], true) ∧
     renew_project_lock (some [("lock:project:5", "workerA:7", 100)])
       0 5 "workerA" 50 =
       (some [("lock:project:5", "workerA:7", 50)], true)) ∧
    (release_project_lock (some [("lock:project:5", "workerA:7", 100)])
       0 5 "intruder" = (some [("lock:project:5", "workerA:7", 100)], false)) ∧
    (release_project_lock (some ([] : Store)) 0 5 "workerA" =
       (some [], false)) := by
  refine ⟨?_, ?_, ?_⟩
  · have h := (release_renew_prefix_ownership
      [("lock:project:5", "workerA:7", 100)] 0 5 50 "workerA").1
      "workerA:7" (by decide) (by decide)
    exact ⟨h.1, h.2⟩
  · exact ((release_renew_prefix_ownership
      [("lock:project:5", "workerA:7", 100)] 0 5 50 "intruder").2.1
      "workerA:7" (by decide) (by decide)).1
  · exact ((release_renew_prefix_ownership [] 0 5 50 "workerA").2.2
      (by decide)).1

end RedisLock

/-! ### Decision engine -/

namespace Decision

/-- Counterexample to C1 as stated: the reply `"\x7b\x7d"` parses as a
JSON object but lacks both required fields, so it is malformed; in state
`received` the decision operation returns the fixed
`\x7b"action": "escalate"\x7d` dictionary built inside
`_parse_decision`'s exception handler, not the fallback-table entry for
`received` (whose action is `analyze_rfp`).  The fallback table is only
reached when the generation call itself raises. -/
theorem decide_next_action_counterexample :
    dictGet (decideNextAction (Except.ok "\x7b\x7d") loadsModel "received")
      "action" = some "escalate" ∧
    dictGet (fallbackDecision "received") "action" = some "analyze_rfp" ∧
    decideNextAction (Except.ok "\x7b\x7d") loadsModel "received" ≠
      fallbackDecision "received" := by
  refine ⟨by decide, by decide, by decide⟩

/-- C1 amended: the decision operation is total (no exception reaches the
caller) and handles the two failure modes differently — when the
text-generation call itself raises, it returns the static fallback-table
entry for the current state; when the generated reply is malformed
(unparseable slice or missing required fields), `_parse_decision`'s
handler returns the fixed escalate decision with a parse-failure
reasoning, for every state alike. -/
theorem decide_next_action_failure_modes
    (loads : String → Except String JDict)
    (status decision_text msg e : String) :
    decideNextAction (Except.error e) loads status = fallbackDecision status ∧
    (parseDecisionTry loads decision_text = Except.error msg →
      decideNextAction (Except.ok decision_text) loads status =
        [("action", "escalate"),
         ("reasoning", "Decision parsing failed: " ++ msg)]) := by
  constructor
  · rfl
  · intro h
    simp [decideNextAction, parseDecision, h]

/-- Witness for the amended C1 at the concrete malformed reply
`"\x7b\x7d"` in state `received`, and a generation failure routed to the
fallback table. -/
theorem decide_next_action_failure_modes_witness :
    decideNextAction (Except.error "timeout") loadsModel "received" =
      fallbackDecision "received" ∧
    parseDecisionTry loadsModel "\x7b\x7d" =
      Except.error "Missing required fields in decision" ∧
    decideNextAction (Except.ok "\x7b\x7d") loadsModel "received" =
      [("action", "escalate"),
       ("reasoning", "Decision parsing failed: " ++
         "Missing required fields in decision")] := by
  have h := decide_next_action_failure_modes loadsModel "received" "\x7b\x7d"
    "Missing required fields in decision" "timeout"
  exact ⟨h.1, rfl, h.2 rfl⟩

end Decision

/-! ### State store and transition engine -/

namespace Orchestrator

theorem find?_setStatus_self (l : List (Nat × ProjectRec)) (pid : Nat)
    (st : String) :
    (setStatus l pid st).find? (fun pr => pr.1 == pid) =
      (l.find? (fun pr => pr.1 == pid)).map
        (fun pr => (pr.1, { pr.2 with status := st })) := by
  induction l with
  | nil => rfl
  | cons x xs ih =>
    by_cases h : x.1 = pid
    · simp [setStatus, List.find?_cons, h]
    · simp [setStatus, List.find?_cons, h, ih]

theorem find?_setStatus_ne (l : List (Nat × ProjectRec)) (pid q : Nat)
    (st : String) (hq : ¬ q = pid) :
    (setStatus l pid st).find? (fun pr => pr.1 == q) =
      l.find? (fun pr => pr.1 == q) := by
  have hpq : (pid == q) = false := by
    simp only [beq_eq_false_iff_ne, ne_eq]
    exact fun hc => hq hc.symm
  induction l with
  | nil => rfl
  | cons x xs ih =>
    by_cases h : x.1 = pid
    · simp [setStatus, List.find?_cons, h, hpq]
    · by_cases hxq : x.1 = q
      · simp [setStatus, List.find?_cons, h, hxq, hq]
      · simp [setStatus, List.find?_cons, h, hxq, ih]

theorem setStatus_keys (l : List (Nat × ProjectRec)) (pid : Nat)
    (st : String) :
    (setStatus l pid st).map (fun pr => pr.1) = l.map (fun pr => pr.1) := by
  induction l with
  | nil => rfl
  | cons x xs ih =>
    by_cases h : x.1 = pid
    · simp [setStatus, h]
    · simp [setStatus, h, ih]

theorem lookupProject_find?_eq (db : DBState) (pid : Nat) (rec : ProjectRec)
    (h : lookupProject db pid = some rec) :
    db.projects.find? (fun pr => pr.1 == pid) = some (pid, rec) := by
  unfold lookupProject at h
  cases hf : db.projects.find? (fun pr => pr.1 == pid) with
  | none => rw [hf] at h; simp at h
  | some pr =>
    rw [hf] at h
    simp at h
    have hkey : pr.1 = pid := by simpa using List.find?_some hf
    cases pr with
    | mk k r =>
      simp only at hkey h
      rw [hkey, h]

theorem lastTransitionFor_append (log : List LogEntry) (e : LogEntry)
    (q : Nat) :
    lastTransitionFor (log ++ [e]) q =
      if e.project_id == q then some e else lastTransitionFor log q := by
  unfold lastTransitionFor
  rw [List.filter_append]
  cases h : e.project_id == q with
  | true => simp [h, List.getLast?_concat]
  | false => simp [h]

theorem transitionState_log_eq (db : DBState) (pid : Nat) (rec : ProjectRec)
    (new_status reasoning : String)
    (hfind : lookupProject db pid = some rec) :
    (transitionState pid new_status reasoning db).log =
      db.log ++ [{ project_id := pid, from_status := rec.status,
                   to_status := new_status,
                   transition_type := "project_status",
                   agent_name := "orchestrator", reasoning := reasoning }] := by
  simp [transitionState, hfind]

theorem transitionState_lookup_self (db : DBState) (pid : Nat)
    (rec : ProjectRec) (new_status reasoning : String)
    (hfind : lookupProject db pid = some rec) :
    lookupProject (transitionState pid new_status reasoning db) pid =
      some { rec with status := new_status } := by
  have hf := lookupProject_find?_eq db pid rec hfind
  simp [transitionState, hfind, lookupProject, find?_setStatus_self, hf]

theorem transitionState_lookup_ne (db : DBState) (pid q : Nat)
    (new_status reasoning : String) (hq : ¬ q = pid) :
    lookupProject (transitionState pid new_status reasoning db) q =
      lookupProject db q := by
  cases hfind : lookupProject db pid with
  | none => simp [transitionState, hfind]
  | some rec =>
    simp only [transitionState, hfind]
    unfold lookupProject
    rw [find?_setStatus_ne db.projects pid q new_status hq]

theorem transitionState_projectIds (db : DBState) (pid : Nat)
    (new_status reasoning : String) :
    projectIds (transitionState pid new_status reasoning db) =
      projectIds db := by
  cases hfind : lookupProject db pid with
  | none => simp [transitionState, hfind]
  | some rec => simp [transitionState, hfind, projectIds, setStatus_keys]

/-- C3: after every successful `_transition_state` call the log has been
extended by exactly one entry (append-only), the stored status equals its
`to_status`, and the invariant "every project's status equals the
`to_status` of its most recent log entry" is preserved for all
projects. -/
theorem transition_state_appends_and_preserves (db : DBState) (pid : Nat)
    (rec : ProjectRec) (new_status reasoning : String)
    (hfind : lookupProject db pid = some rec)
    (hinv : statusMatchesLog db) :
    (transitionState pid new_status reasoning db).log =
      db.log ++ [{ project_id := pid, from_status := rec.status,
                   to_status := new_status,
                   transition_type := "project_status",
                   agent_name := "orchestrator", reasoning := reasoning }] ∧
    lookupProject (transitionState pid new_status reasoning db) pid =
      some { rec with status := new_status } ∧
    lastToStatus (transitionState pid new_status reasoning db).log pid =
      some new_status ∧
    statusMatchesLog (transitionState pid new_status reasoning db) := by
  have hlog := transitionState_log_eq db pid rec new_status reasoning hfind
  have hself := transitionState_lookup_self db pid rec new_status reasoning hfind
  refine ⟨hlog, hself, ?_, ?_⟩
  · rw [hlog]
    unfold lastToStatus
    rw [lastTransitionFor_append]
    simp
  · intro q hq
    rw [transitionState_projectIds] at hq
    rw [hlog]
    unfold lastToStatus
    rw [lastTransitionFor_append]
    by_cases hqp : q = pid
    · subst hqp
      simp [hself]
    · have : (pid == q) = false := by
        simp
        exact fun hc => hqp hc.symm
      rw [this]
      rw [transitionState_lookup_ne db pid q new_status reasoning hqp]
      exact hinv q hq

/-- Witness for C3 on the concrete consistent database `dbReceived`:
transitioning project 1 to `analyzing` appends exactly the expected entry
and preserves the invariant. -/
theorem transition_state_appends_and_preserves_witness :
    lookupProject dbReceived 1 = some { status := "received", timeout_at := none } ∧
    statusMatchesLog dbReceived ∧
    (transitionState 1 "analyzing" "Action completed" dbReceived).log =
      dbReceived.log ++ [{ project_id := 1, from_status := "received",
                           to_status := "analyzing",
                           transition_type := "project_status",
                           agent_name := "orchestrator",
                           reasoning := "Action completed" }] ∧
    statusMatchesLog (transitionState 1 "analyzing" "Action completed" dbReceived) := by
  have h1 : lookupProject dbReceived 1 =
      some { status := "received", timeout_at := none } := by decide
  have h2 : statusMatchesLog dbReceived := by
    unfold statusMatchesLog
    decide
  have h := transition_state_appends_and_preserves dbReceived 1
    { status := "received", timeout_at := none } "analyzing"
    "Action completed" h1 h2
  exact ⟨h1, h2, h.1, h.2.2.2⟩

/-- Counterexample to C4 as stated: `_transition_state` raises neither
`NotFound` nor `InvalidTransition`.  On an empty database the call for a
missing project silently returns the database unchanged (no error value
exists in its type), and a transition that is illegal by the
orchestrator's own `STATE_TRANSITIONS` table (there is no transition out
of `sent`, let alone back to `received`) succeeds anyway: the status is
updated and a log entry is appended. -/
theorem transition_state_counterexample :
    transitionState 7 "analyzing" "retry" { projects := [], log := [] } =
      { projects := [], log := [] } ∧
    STATE_TRANSITIONS "sent" = none ∧
    (transitionState 1 "received" "undo" dbSent).log =
      [{ project_id := 1, from_status := "sent", to_status := "received",
         transition_type := "project_status", agent_name := "orchestrator",
         reasoning := "undo" }] ∧
    lookupProject (transitionState 1 "received" "undo" dbSent) 1 =
      some { status := "received", timeout_at := none } := by
  refine ⟨rfl, rfl, rfl, rfl⟩

/-- C4 amended: the transition operation performs no legality check and
signals no error — for an existing project it accepts any requested new
status (updating the row and appending one log entry), and for a missing
project it is a silent no-op leaving both the project table and the log
unchanged. -/
theorem transition_state_no_checks (db : DBState) (pid : Nat)
    (new_status reasoning : String) :
    (lookupProject db pid = none →
       transitionState pid new_status reasoning db = db) ∧
    (∀ rec, lookupProject db pid = some rec →
       (transitionState pid new_status reasoning db).log =
         db.log ++ [{ project_id := pid, from_status := rec.status,
                      to_status := new_status,
                      transition_type := "project_status",
                      agent_name := "orchestrator",
                      reasoning := reasoning }] ∧
       lookupProject (transitionState pid new_status reasoning db) pid =
         some { rec with status := new_status }) := by
  constructor
  · intro h
    simp [transitionState, h]
  · intro rec hfind
    exact ⟨transitionState_log_eq db pid rec new_status reasoning hfind,
      transitionState_lookup_self db pid rec new_status reasoning hfind⟩

/-- Witness for the amended C4: the no-op on an empty database and an
unvalidated backwards transition out of `sent`. -/
theorem transition_state_no_checks_witness :
    transitionState 7 "planning" "noop" { projects := [], log := [] } =
      { projects := [], log := [] } ∧
    (transitionState 1 "analyzing" "back" dbSent).log =
      [{ project_id := 1, from_status := "sent", to_status := "analyzing",
         transition_type := "project_status", agent_name := "orchestrator",
         reasoning := "back" }] := by
  have h := transition_state_no_checks { projects := [], log := [] } 7
    "planning" "noop"
  have h2 := transition_state_no_checks dbSent 1 "analyzing" "back"
  exact ⟨h.1 (by decide),
    ((h2.2 { status := "sent", timeout_at := none } (by decide)).1)⟩

/-- Counterexample to C7 as stated: the timeout handler transitions the
project to status `timeout` (not `escalated`, and no `timeout_expired`
trigger exists in the log schema), and re-running the sweep immediately
appends a second log entry for the same expiry — `timeout_at` is never
cleared and no pre-state guard exists, so the sweep is not idempotent. -/
theorem timeout_sweep_counterexample :
    (timeoutSweepStep 11 1 dbTimedOut).1.log =
      [{ project_id := 1, from_status := "validating", to_status := "timeout",
         transition_type := "project_status", agent_name := "orchestrator",
         reasoning := "Project timed out" }] ∧
    (timeoutSweepStep 11 1 (timeoutSweepStep 11 1 dbTimedOut).1).1.log =
      [{ project_id := 1, from_status := "validating", to_status := "timeout",
         transition_type := "project_status", agent_name := "orchestrator",
         reasoning := "Project timed out" },
       { project_id := 1, from_status := "timeout", to_status := "timeout",
         transition_type := "project_status", agent_name := "orchestrator",
         reasoning := "Project timed out" }] ∧
    ((timeoutSweepStep 11 1 (timeoutSweepStep 11 1 dbTimedOut).1).1.log.filter
       (fun e => e.to_status == "escalated")).length = 0 := by
  refine ⟨rfl, rfl, rfl⟩

/-- C7 amended: for every project whose `timeout_at` has passed, the
sweep step transitions it to status `timeout` (reasoning "Project timed
out"), appending one log entry; because `timeout_at` is left in place and
no pre-state guard exists, an immediate second sweep appends a second
entry from `timeout` to `timeout` for the same expiry. -/
theorem timeout_sweep_appends_each_run (db : DBState) (pid : Nat)
    (rec : ProjectRec) (now : Nat)
    (hfind : lookupProject db pid = some rec)
    (ht : checkTimeouts now rec.timeout_at = true) :
    (timeoutSweepStep now pid db).2 = true ∧
    (timeoutSweepStep now pid db).1.log =
      db.log ++ [{ project_id := pid, from_status := rec.status,
                   to_status := "timeout",
                   transition_type := "project_status",
                   agent_name := "orchestrator",
                   reasoning := "Project timed out" }] ∧
    lookupProject (timeoutSweepStep now pid db).1 pid =
      some { rec with status := "timeout" } ∧
    (timeoutSweepStep now pid (timeoutSweepStep now pid db).1).1.log =
      db.log ++ [{ project_id := pid, from_status := rec.status,
                   to_status := "timeout",
                   transition_type := "project_status",
                   agent_name := "orchestrator",
                   reasoning := "Project timed out" },
                 { project_id := pid, from_status := "timeout",
                   to_status := "timeout",
                   transition_type := "project_status",
                   agent_name := "orchestrator",
                   reasoning := "Project timed out" }] := by
  have hstep : timeoutSweepStep now pid db =
      (handleTimeout pid db, true) := by
    simp [timeoutSweepStep, hfind, ht]
  have hlog := transitionState_log_eq db pid rec "timeout" "Project timed out"
    hfind
  have hself := transitionState_lookup_self db pid rec "timeout"
    "Project timed out" hfind
  refine ⟨by rw [hstep], by rw [hstep]; exact hlog, by rw [hstep]; exact hself, ?_⟩
  rw [hstep]
  have hfind2 : lookupProject (handleTimeout pid db) pid =
      some { rec with status := "timeout" } := hself
  have ht2 : checkTimeouts now ({ rec with status := "timeout" } :
      ProjectRec).timeout_at = true := ht
  have hstep2 : timeoutSweepStep now pid (handleTimeout pid db) =
      (handleTimeout pid (handleTimeout pid db), true) := by
    simp [timeoutSweepStep, hfind2, ht2]
  rw [hstep2]
  have hlog2 := transitionState_log_eq (handleTimeout pid db) pid
    { rec with status := "timeout" } "timeout" "Project timed out" hfind2
  unfold handleTimeout at hlog2 ⊢
  rw [hlog2, hlog, List.append_assoc]
  rfl

/-- Witness for the amended C7 on `dbTimedOut` at clock 11. -/
theorem timeout_sweep_appends_each_run_witness :
    (timeoutSweepStep 11 1 dbTimedOut).2 = true ∧
    (timeoutSweepStep 11 1 (timeoutSweepStep 11 1 dbTimedOut).1).1.log.length
      = 2 := by
  have h := timeout_sweep_appends_each_run dbTimedOut 1
    { status := "validating", timeout_at := some 10 } 11 (by decide) (by decide)
  refine ⟨h.1, ?_⟩
  rw [h.2.2.2]
  rfl

end Orchestrator

/-! ### Validation coordinator -/

namespace Validation

theorem createValidationTask_rows (genQuestion : ValidationNeed → String)
    (v : ValidationNeed) (db : ValidationDB) :
    ((createValidationTask genQuestion v db).1).rows.length =
      db.rows.length + 1 := by
  simp [createValidationTask]

theorem createValidationTask_matching (genQuestion : ValidationNeed → String)
    (v : ValidationNeed) (db : ValidationDB) (rid : Nat) (ap : String) :
    matchingRequests (createValidationTask genQuestion v db).1 rid ap =
      matchingRequests db rid ap +
        (if v.resource_id == rid && v.attr == ap then 1 else 0) := by
  unfold matchingRequests createValidationTask
  rw [List.filter_append]
  cases h : (v.resource_id == rid && v.attr == ap) with
  | true => simp [h]
  | false => simp [h]

/-- Counterexample to C6 as stated: two identical
`(resource_id, attribute_path)` needs submitted in the same orchestration
pass (hence trivially within any suppression window) produce two
`ValidationRequest` rows, not one — `_create_validation_task` inserts
unconditionally and never looks up an existing pending or sent
request. -/
theorem validation_dedup_counterexample :
    matchingRequests
      (orchestrateValidations (fun _ => "Is the resource available?")
        [{ resource_id := 1, attr := "availability",
           reason := "Data may be stale", priority := "medium" },
         { resource_id := 1, attr := "availability",
           reason := "Data may be stale", priority := "medium" }]
        { rows := [], nextId := 1 }).1 1 "availability" = 2 ∧
    ¬ matchingRequests
      (orchestrateValidations (fun _ => "Is the resource available?")
        [{ resource_id := 1, attr := "availability",
           reason := "Data may be stale", priority := "medium" },
         { resource_id := 1, attr := "availability",
           reason := "Data may be stale", priority := "medium" }]
        { rows := [], nextId := 1 }).1 1 "availability" = 1 := by
  refine ⟨rfl, by decide⟩

/-- C6 amended: no deduplication exists for validation requests — every
submitted need unconditionally creates its own row, so the orchestration
pass creates exactly one row per need, and for every
`(resource_id, attribute_path)` key the number of matching rows grows by
the number of matching needs, identical duplicates included. -/
theorem orchestrate_validations_no_dedup (genQuestion : ValidationNeed → String)
    (needs : List ValidationNeed) (db : ValidationDB) :
    ((orchestrateValidations genQuestion needs db).1).rows.length =
      db.rows.length + needs.length ∧
    ∀ rid ap,
      matchingRequests (orchestrateValidations genQuestion needs db).1 rid ap =
        matchingRequests db rid ap +
          (needs.filter
            (fun v => v.resource_id == rid && v.attr == ap)).length := by
  induction needs generalizing db with
  | nil =>
    refine ⟨by simp [orchestrateValidations], ?_⟩
    intro rid ap
    simp [orchestrateValidations]
  | cons v rest ih =>
    constructor
    · have h1 := createValidationTask_rows genQuestion v db
      have h2 := (ih (createValidationTask genQuestion v db).1).1
      simp only [orchestrateValidations]
      rw [h2, h1]
      simp [List.length_cons]
      omega
    · intro rid ap
      have h1 := createValidationTask_matching genQuestion v db rid ap
      have h2 := (ih (createValidationTask genQuestion v db).1).2 rid ap
      simp only [orchestrateValidations]
      rw [h2, h1, List.filter_cons]
      cases h : (v.resource_id == rid && v.attr == ap) with
      | true => simp [h]; omega
      | false => simp [h]

end Validation

/-! ### Inbound email processing -/

namespace EmailAgent

/-- C9 evaluated at a concrete re-delivered message: after `sampleMsg`
(uid `"123"`, carrying a live thread id) has been processed once at time
0, its uid sits unexpired in the TTL-bounded processed-message set; yet
processing the same message again at time 100 returns a full processed
record exactly as before — `_process_raw_email` (and the `_check_inbox`
fetch loop around it) never consults the set, so nothing skips the
message.  The set is only ever written by `_mark_email_processed`. -/
theorem email_reprocessed_within_ttl :
    extractThreadIdFromHeaders sampleMsg.headers =
      some "aaaaaaaa-bbbb-cccc-dddd-eeeeeeeeeeee" ∧
    (processRawEmail 0 [] sampleMsg).2.isSome = true ∧
    emailProcessed (processRawEmail 0 [] sampleMsg).1 "123" 100 = true ∧
    (processRawEmail 100 (processRawEmail 0 [] sampleMsg).1 sampleMsg).2 =
      (processRawEmail 0 [] sampleMsg).2 ∧
    (fetchLoop 100 (processRawEmail 0 [] sampleMsg).1 [sampleMsg]).2.length
      = 1 := by
  refine ⟨rfl, rfl, rfl, rfl, rfl⟩

end EmailAgent

/-! ### Checkpointed proposal workflow -/

namespace Workflow

theorem route_after_check_is_proceed (s : WorkflowState) :
    routeAfterClarificationCheck (checkClarificationNode s) = "proceed" := rfl

theorem invokeGraph_messages (fns : AgentFns) (s : WorkflowState) :
    (invokeGraph fns s).messages = s.messages ++ runMessages := by
  simp [invokeGraph, briefPreparationNode, checkClarificationNode,
    routeAfterClarificationCheck, proposalGenerationNode,
    resourceValidationNode, awaitValidationNode, leadValidationNode,
    awaitLeadApprovalNode, finalizeProposalNode, updateMemoryNode,
    runMessages, List.append_assoc]

theorem getState_setState_self (store : CheckpointStore) (pid : String)
    (s : WorkflowState) :
    getState (setState store pid s) pid = some s := by
  induction store with
  | nil => simp [setState, getState, List.find?_cons]
  | cons e rest ih =>
    by_cases h : e.1 = pid
    · simp [setState, getState, h, List.find?_cons]
    · have hb : (e.1 == pid) = false := by
        simp only [beq_eq_false_iff_ne, ne_eq]
        exact h
      have hs : setState (e :: rest) pid s = e :: setState rest pid s := by
        simp [setState, hb]
      rw [hs]
      have hstep : getState (e :: setState rest pid s) pid =
          getState (setState rest pid s) pid := by
        simp [getState, List.find?_cons, hb]
      rw [hstep]
      exact ih

theorem applyUpdates_messages_none (s : WorkflowState) (u : StateUpdates)
    (h : u.messages = none) : (applyUpdates s u).messages = s.messages := by
  simp [applyUpdates, h]

theorem resumeWorkflow_some (fns : AgentFns) (store : CheckpointStore)
    (pid : String) (u : StateUpdates) (cur : WorkflowState)
    (hget : getState store pid = some cur) :
    resumeWorkflow fns store pid u =
      (setState store pid (invokeGraph fns (applyUpdates cur u)),
       some (invokeGraph fns (applyUpdates cur u))) := by
  simp [resumeWorkflow, hget]

/-- Counterexample to C5 as stated: starting from the persisted paused
state, calling `resume_workflow` twice with the identical (empty) updates
payload leaves a different persisted state than calling it once — the
second call is neither detected nor ignored, and the workflow's progress
messages are appended a second time. -/
theorem resume_twice_counterexample :
    getState (resumeWorkflow constFns
      (resumeWorkflow constFns [("project_brief_001", pausedState)]
        "project_brief_001" {}).1
      "project_brief_001" {}).1 "project_brief_001" ≠
    getState (resumeWorkflow constFns [("project_brief_001", pausedState)]
      "project_brief_001" {}).1 "project_brief_001" := by
  decide

/-- C5 amended: `resume_workflow` performs no comparison against the
persisted checkpoint — it merges the updates over the persisted state and
unconditionally re-invokes the graph, which appends its eight progress
messages on every run; hence for any updates payload that does not itself
overwrite the messages field, resuming twice with identical updates
yields a different persisted state than resuming once. -/
theorem resume_workflow_not_idempotent (fns : AgentFns)
    (store : CheckpointStore) (pid : String) (u : StateUpdates)
    (cur : WorkflowState) (hget : getState store pid = some cur)
    (hmsg : u.messages = none) :
    getState (resumeWorkflow fns (resumeWorkflow fns store pid u).1 pid u).1
      pid ≠ getState (resumeWorkflow fns store pid u).1 pid := by
  have h1 := resumeWorkflow_some fns store pid u cur hget
  have hget1 : getState (resumeWorkflow fns store pid u).1 pid =
      some (invokeGraph fns (applyUpdates cur u)) := by
    rw [h1]
    exact getState_setState_self store pid _
  have h2 := resumeWorkflow_some fns (resumeWorkflow fns store pid u).1 pid u
    (invokeGraph fns (applyUpdates cur u)) hget1
  intro hcontra
  rw [h2] at hcontra
  rw [getState_setState_self] at hcontra
  rw [hget1] at hcontra
  have heq := Option.some.inj hcontra
  have hm1 : (invokeGraph fns (applyUpdates cur u)).messages =
      cur.messages ++ runMessages := by
    rw [invokeGraph_messages, applyUpdates_messages_none cur u hmsg]
  have hm2 : (invokeGraph fns (applyUpdates
      (invokeGraph fns (applyUpdates cur u)) u)).messages =
      (cur.messages ++ runMessages) ++ runMessages := by
    rw [invokeGraph_messages,
      applyUpdates_messages_none _ u hmsg, hm1]
  have hmeq := congrArg WorkflowState.messages heq
  rw [hm1, hm2] at hmeq
  have hlen := congrArg List.length hmeq
  simp only [List.length_append] at hlen
  have hrun : runMessages.length = 8 := rfl
  omega

/-- Witness for the amended C5 on the concrete paused checkpoint with an
empty updates payload. -/
theorem resume_workflow_not_idempotent_witness :
    getState [("project_brief_001", pausedState)] "project_brief_001" =
      some pausedState ∧
    getState (resumeWorkflow constFns
      (resumeWorkflow constFns [("project_brief_001", pausedState)]
        "project_brief_001"
        { messages := none }).1 "project_brief_001" { messages := none }).1
      "project_brief_001" ≠
    getState (resumeWorkflow constFns [("project_brief_001", pausedState)]
      "project_brief_001" { messages := none }).1 "project_brief_001" := by
  refine ⟨by decide, ?_⟩
  exact resume_workflow_not_idempotent constFns
    [("project_brief_001", pausedState)] "project_brief_001"
    { messages := none } pausedState (by decide) rfl

end Workflow

end ProposalBot
